import Mathlib

/-!
Verification of the failover decision engine in `intelligent_failover.py`
(repository `cloudflareFailover`).

The Python classes and methods are shallowly embedded as Lean definitions:

* `HealthCheck`, `MonitorState` mirror the dataclasses; Python `datetime`
  values are modelled by `PyDateTime` (the seven calendar fields compared
  lexicographically, exactly as CPython compares naive datetimes), and the
  float `latency_ms` is modelled by `Rat` (the engine only ever compares it
  against the integral threshold 100, so no floating-point rounding is
  observable in the properties below).
* Effectful collaborators (the Cloudflare DNS API, the clock, the network
  probe) are modelled by passing their outcomes explicitly: a check cycle
  receives a `CycleInput` carrying the DNS read result, the probe result,
  the DNS write result and the current time, and returns a `CycleResult`
  carrying the updated state and the committed DNS write, if any.
* Fallible code paths (state-file loading, the HTTP probe) are modelled by
  enumerating the outcome a caught exception corresponds to; the Python
  functions catch all exceptions, which is reflected by the Lean functions
  being total.
-/

namespace CFFailover

/-- Model of a CPython naive `datetime` value: the seven calendar fields.
`datetime.now()` results are opaque here; ordering is field-lexicographic,
as in CPython. -/
@[ext]
structure PyDateTime where
  year : Nat
  month : Nat
  day : Nat
  hour : Nat
  minute : Nat
  second : Nat
  microsecond : Nat
deriving DecidableEq, Repr

/-- `@dataclass HealthCheck` (intelligent_failover.py lines 23-28). -/
structure HealthCheck where
  timestamp : PyDateTime
  success : Bool
  latency_ms : Option Rat
  error : Option String
deriving DecidableEq, Repr

/-- `@dataclass MonitorState` (intelligent_failover.py lines 30-38). -/
structure MonitorState where
  current_ip : String
  is_failed_over : Bool
  consecutive_failures : Nat
  consecutive_successes : Nat
  last_failover : Option PyDateTime
  last_restore : Option PyDateTime
  health_history : List HealthCheck
deriving DecidableEq, Repr

/-- The configuration constants the engine consults: the hard-coded IPs from
`load_config` and the thresholds set in `__init__` (lines 54-59). -/
structure Config where
  primary_ip : String
  backup_ip : String
  latency_threshold_ms : Rat
  failure_threshold : Nat
  success_threshold : Nat
deriving DecidableEq, Repr

/-- `self.check_interval = 30` (line 55). -/
def check_interval : Nat := 30

/-- `self.stability_period = 600` (line 58). -/
def stability_period : Nat := 600

/-- The configuration as the constructor builds it: hard-coded IPs (lines
240-241), `latency_threshold_ms = 100`, `failure_threshold = 2`, and
`success_threshold = stability_period // check_interval = 20` (lines 56-59). -/
def defaultConfig : Config :=
  { primary_ip := "172.171.99.178"
    backup_ip := "172.171.100.13"
    latency_threshold_ms := 100
    failure_threshold := 2
    success_threshold := stability_period / check_interval }

/-- Python truthiness of the optional latency value (`if health_check.latency_ms`):
`None` and `0.0` are falsy. -/
def latTruthy : Option Rat → Bool
  | none => false
  | some x => x != 0

/-- The latency value consulted after a truthiness guard. -/
def latVal (l : Option Rat) : Rat := l.getD 0

/-- The healthiness predicate of `update_state` (lines 477-480):
`health_check.success and (not health_check.latency_ms or
health_check.latency_ms <= self.latency_threshold_ms)`. -/
def isHealthy (hc : HealthCheck) (thr : Rat) : Bool :=
  hc.success && (!latTruthy hc.latency_ms || decide (latVal hc.latency_ms ≤ thr))

/-- `should_failover` (lines 435-448), reading the counters of the state it
is handed (the Python method reads `self.state` after `update_state` ran). -/
def should_failover (cfg : Config) (s : MonitorState) (hc : HealthCheck) : Bool :=
  if s.is_failed_over then
    false
  else if !hc.success then
    decide (cfg.failure_threshold ≤ s.consecutive_failures)
  else if latTruthy hc.latency_ms && decide (cfg.latency_threshold_ms < latVal hc.latency_ms) then
    decide (cfg.failure_threshold ≤ s.consecutive_failures)
  else
    false

/-- `should_restore` (lines 450-467). -/
def should_restore (cfg : Config) (s : MonitorState) (hc : HealthCheck) : Bool :=
  if !s.is_failed_over then
    false
  else if !hc.success then
    false
  else if latTruthy hc.latency_ms && decide (cfg.latency_threshold_ms < latVal hc.latency_ms) then
    false
  else
    decide (cfg.success_threshold ≤ s.consecutive_successes)

/-- `update_state` (lines 469-487): append the check to the history, pop the
oldest entry once the length exceeds 100, then update the two consecutive
counters according to the healthiness predicate. -/
def update_state (cfg : Config) (s : MonitorState) (hc : HealthCheck) : MonitorState :=
  let hist0 := s.health_history ++ [hc]
  let hist := if 100 < hist0.length then hist0.drop 1 else hist0
  if isHealthy hc cfg.latency_threshold_ms then
    { s with health_history := hist
             consecutive_failures := 0
             consecutive_successes := s.consecutive_successes + 1 }
  else
    { s with health_history := hist
             consecutive_failures := s.consecutive_failures + 1
             consecutive_successes := 0 }

/-- The environment outcomes one call of `process_health_check` observes:
whether `get_dns_record` found the record and what content it reported,
the probe result for the primary IP, whether `update_dns_record` would
succeed, and the clock value `datetime.now()` would return. -/
structure CycleInput where
  record_found : Bool
  current_dns_ip : String
  hc : HealthCheck
  write_ok : Bool
  now : PyDateTime
deriving DecidableEq, Repr

/-- What one call of `process_health_check` produced: the state afterwards,
the DNS content committed by a successful `update_dns_record` call (if any),
whether `action_taken` was set, and the method's return value. -/
structure CycleResult where
  state : MonitorState
  dns_write : Option String
  action_taken : Bool
  ok : Bool
deriving DecidableEq, Repr

/-- `process_health_check` (lines 489-623): abort if the DNS record could
not be read; otherwise cache the DNS content in `current_ip`, run
`update_state` on the probe result, then evaluate `should_failover` and
`should_restore` (in that order, `elif`) and commit the corresponding
transition only when the DNS write succeeds. -/
def process_health_check (cfg : Config) (s : MonitorState) (inp : CycleInput) : CycleResult :=
  if inp.record_found = false then
    { state := s, dns_write := none, action_taken := false, ok := false }
  else
    let s1 := { s with current_ip := inp.current_dns_ip }
    let s2 := update_state cfg s1 inp.hc
    if should_failover cfg s2 inp.hc then
      if inp.write_ok then
        { state := { s2 with is_failed_over := true
                             last_failover := some inp.now
                             current_ip := cfg.backup_ip
                             consecutive_failures := 0 }
          dns_write := some cfg.backup_ip, action_taken := true, ok := true }
      else
        { state := s2, dns_write := none, action_taken := false, ok := true }
    else if should_restore cfg s2 inp.hc then
      if inp.write_ok then
        { state := { s2 with is_failed_over := false
                             last_restore := some inp.now
                             current_ip := cfg.primary_ip
                             consecutive_successes := 0 }
          dns_write := some cfg.primary_ip, action_taken := true, ok := true }
      else
        { state := s2, dns_write := none, action_taken := false, ok := true }
    else
      { state := s2, dns_write := none, action_taken := false, ok := true }

/-- A sequence of check cycles, returning the final state and the per-cycle
results in order. -/
def run_cycles (cfg : Config) (s : MonitorState) : List CycleInput → MonitorState × List CycleResult
  | [] => (s, [])
  | i :: is =>
    let r := process_health_check cfg s i
    let rest := run_cycles cfg r.state is
    (rest.1, r :: rest.2)

/-- The environment outcomes a manual override observes. -/
structure ManualInput where
  record_found : Bool
  write_ok : Bool
  now : PyDateTime
deriving DecidableEq, Repr

/-- `manual_failover` (lines 715-733): returns `False` immediately when
already failed over; otherwise reads the DNS record, writes the backup IP,
and on a successful write sets the flag, `last_failover` and `current_ip`
(the counters are untouched) and returns `True`. -/
def manual_failover (cfg : Config) (s : MonitorState) (inp : ManualInput) :
    MonitorState × Bool :=
  if s.is_failed_over then
    (s, false)
  else if inp.record_found = false then
    (s, false)
  else if inp.write_ok then
    ({ s with is_failed_over := true
              last_failover := some inp.now
              current_ip := cfg.backup_ip }, true)
  else
    (s, false)

/-- `manual_restore` (lines 735-754): returns `False` immediately when not
failed over; otherwise on a successful write clears the flag, sets
`last_restore` and `current_ip`, resets `consecutive_successes` and
returns `True`. -/
def manual_restore (cfg : Config) (s : MonitorState) (inp : ManualInput) :
    MonitorState × Bool :=
  if s.is_failed_over = false then
    (s, false)
  else if inp.record_found = false then
    (s, false)
  else if inp.write_ok then
    ({ s with is_failed_over := false
              last_restore := some inp.now
              current_ip := cfg.primary_ip
              consecutive_successes := 0 }, true)
  else
    (s, false)

/-- The exit code the CLI maps a manual command result to:
`sys.exit(0 if success else 1)` (lines 782-786). -/
def command_exit_code (success : Bool) : Nat :=
  if success then 0 else 1

/-- The fresh default state `load_state` builds (lines 266-274 and 300-308). -/
def default_state : MonitorState :=
  { current_ip := ""
    is_failed_over := false
    consecutive_failures := 0
    consecutive_successes := 0
    last_failover := none
    last_restore := none
    health_history := [] }

/-- The condition of the persistence medium as `load_state` observes it:
the state file may be missing, its content may fail to parse as JSON, the
parsed data may not match the `MonitorState` schema (both raise, and the
`except` at line 298 catches them), or it decodes to a state. -/
inductive StoreCondition where
  | missingFile
  | parseError (msg : String)
  | schemaMismatch (msg : String)
  | wellFormed (s : MonitorState)
deriving DecidableEq, Repr

/-- `load_state` (lines 263-308), with the availability of `self.logger`
made explicit. A missing file returns the default state before any logger
use, and well-formed content returns the decoded state. On a parse error
or a schema mismatch the `except` handler (lines 298-299) first calls
`self.logger.error(...)`: when the logger attribute exists it logs and
falls back to the default state, but when it does not, the handler itself
raises `AttributeError`, which propagates to the caller (modelled as
`.error`). -/
def load_state (logger_ready : Bool) : StoreCondition → Except String MonitorState
  | .missingFile => .ok default_state
  | .parseError _ =>
    if logger_ready then .ok default_state
    else .error "AttributeError: no attribute logger"
  | .schemaMismatch _ =>
    if logger_ready then .ok default_state
    else .error "AttributeError: no attribute logger"
  | .wellFormed s => .ok s

/-- The only call site of `load_state`: `__init__` runs
`self.state = self.load_state()` (line 51) before `self.setup_logging()`
(line 52), so the logger attribute does not yet exist there. -/
def init_load_state (c : StoreCondition) : Except String MonitorState :=
  load_state false c

/-- The outcome of one HTTP attempt inside `ping_with_latency` (lines
340-377): a response with a status code (and the elapsed latency), a
`requests.exceptions.ConnectionError`, a `requests.exceptions.Timeout`
(with the elapsed latency), or some other exception. The latter two of the
four `except` arms `continue` to the next protocol. -/
inductive AttemptResult where
  | response (status : Nat) (latency : Rat)
  | connectionError
  | timeout (latency : Rat)
  | otherError
deriving DecidableEq, Repr

/-- What one attempt of the protocol loop produces: `some` check when the
attempt returns from the function, `none` when it falls through to the next
protocol (`continue`). Statuses below 500 are treated as healthy (comment at
lines 347-348), statuses of 500 and above yield `success=False` with error
`"HTTP <code>"`; a timeout yields `"HTTP timeout"`. -/
def attemptOutcome (now : PyDateTime) : AttemptResult → Option HealthCheck
  | .response st lat =>
    if st < 500 then
      some { timestamp := now, success := true, latency_ms := some lat, error := none }
    else
      some { timestamp := now, success := false, latency_ms := some lat
             error := some ("HTTP " ++ Nat.repr st) }
  | .timeout lat =>
    some { timestamp := now, success := false, latency_ms := some lat
           error := some "HTTP timeout" }
  | .connectionError => none
  | .otherError => none

/-- `ping_with_latency` (lines 334-394): try HTTP, then HTTPS; if both
attempts fall through, return `success=False` with error
`"HTTP connection failed"` and the total elapsed latency. Totality of this
function is the "never raises on network failure" contract: every `except`
arm in the source produces a value rather than re-raising. -/
def ping_with_latency (now : PyDateTime) (totalLatency : Rat)
    (httpAttempt httpsAttempt : AttemptResult) : HealthCheck :=
  match attemptOutcome now httpAttempt with
  | some hc => hc
  | none =>
    match attemptOutcome now httpsAttempt with
    | some hc => hc
    | none =>
      { timestamp := now, success := false, latency_ms := some totalLatency
        error := some "HTTP connection failed" }

/-- The decimal digit characters, as core `Nat.digitChar` yields them for
digits below 10. -/
def padDigits : Nat → Nat → List Char
  | 0, _ => []
  | w + 1, n => padDigits w (n / 10) ++ [Nat.digitChar (n % 10)]

/-- CPython `datetime.isoformat()` for a naive datetime, as a character
list: `YYYY-MM-DDTHH:MM:SS`, followed by `.ffffff` exactly when the
microsecond field is nonzero. -/
def isoChars (d : PyDateTime) : List Char :=
  padDigits 4 d.year ++ ('-' :: (padDigits 2 d.month ++ ('-' :: (padDigits 2 d.day ++
    ('T' :: (padDigits 2 d.hour ++ (':' :: (padDigits 2 d.minute ++ (':' ::
    (padDigits 2 d.second ++
      (if d.microsecond = 0 then [] else '.' :: padDigits 6 d.microsecond)))))))))))

/-- CPython `datetime.isoformat()` as a string. -/
def isoformat (d : PyDateTime) : String := String.mk (isoChars d)

/-- A serialized health-history entry as `save_state` writes it (lines
322-327): the timestamp replaced by its `isoformat()` string. -/
structure SerializedHealthCheck where
  timestamp : String
  success : Bool
  latency_ms : Option Rat
  error : Option String
deriving DecidableEq, Repr

/-- The JSON-ready dictionary `save_state` writes (lines 310-332). -/
structure SerializedState where
  current_ip : String
  is_failed_over : Bool
  consecutive_failures : Nat
  consecutive_successes : Nat
  last_failover : Option String
  last_restore : Option String
  health_history : List SerializedHealthCheck
deriving DecidableEq, Repr

/-- `save_state` (lines 310-332): `asdict(self.state)` with the datetime
fields converted via `isoformat()`. The health history is converted
entry by entry; no truncation is applied before writing. -/
def save_state (s : MonitorState) : SerializedState :=
  { current_ip := s.current_ip
    is_failed_over := s.is_failed_over
    consecutive_failures := s.consecutive_failures
    consecutive_successes := s.consecutive_successes
    last_failover := s.last_failover.map isoformat
    last_restore := s.last_restore.map isoformat
    health_history := s.health_history.map fun h =>
      { timestamp := isoformat h.timestamp
        success := h.success
        latency_ms := h.latency_ms
        error := h.error } }

/-- CPython's ordering on naive `datetime` values: lexicographic on the
seven fields. -/
def dtLt (a b : PyDateTime) : Prop :=
  a.year < b.year ∨ (a.year = b.year ∧
    (a.month < b.month ∨ (a.month = b.month ∧
      (a.day < b.day ∨ (a.day = b.day ∧
        (a.hour < b.hour ∨ (a.hour = b.hour ∧
          (a.minute < b.minute ∨ (a.minute = b.minute ∧
            (a.second < b.second ∨ (a.second = b.second ∧
              a.microsecond < b.microsecond)))))))))))

instance (a b : PyDateTime) : Decidable (dtLt a b) := by
  unfold dtLt; infer_instance

/-- The field ranges CPython's `datetime` constructor enforces. -/
def validDT (d : PyDateTime) : Prop :=
  1 ≤ d.year ∧ d.year ≤ 9999 ∧ 1 ≤ d.month ∧ d.month ≤ 12 ∧ 1 ≤ d.day ∧ d.day ≤ 31 ∧
    d.hour ≤ 23 ∧ d.minute ≤ 59 ∧ d.second ≤ 59 ∧ d.microsecond ≤ 999999

instance (d : PyDateTime) : Decidable (validDT d) := by
  unfold validDT; infer_instance

/-- A mixed-radix key that realizes `dtLt` as an order on `Nat` for valid
datetimes. -/
def dtKey (d : PyDateTime) : Nat :=
  ((((((d.year * 13 + d.month) * 32 + d.day) * 24 + d.hour) * 60 + d.minute) * 60 +
    d.second) * 1000000) + d.microsecond

/-- The history update step of `update_state` in isolation (lines 471-474):
append, then pop the front once the length exceeds 100. -/
def stepHist (h : List HealthCheck) (x : HealthCheck) : List HealthCheck :=
  if 100 < (h ++ [x]).length then (h ++ [x]).drop 1 else h ++ [x]

/-- The most recent 100 entries of a list, in order. -/
def last100 (l : List HealthCheck) : List HealthCheck := l.drop (l.length - 100)

/-- A cycle whose DNS read and DNS write both succeed. -/
def goodInput (i : CycleInput) : Prop := i.record_found = true ∧ i.write_ok = true

instance (i : CycleInput) : Decidable (goodInput i) := by
  unfold goodInput; infer_instance

/-- A good cycle whose probe result is unhealthy under the default latency
threshold. -/
def unhealthyInput (i : CycleInput) : Prop :=
  goodInput i ∧ isHealthy i.hc defaultConfig.latency_threshold_ms = false

instance (i : CycleInput) : Decidable (unhealthyInput i) := by
  unfold unhealthyInput; infer_instance

/-- A good cycle whose probe result is healthy under the default latency
threshold. -/
def healthyInput (i : CycleInput) : Prop :=
  goodInput i ∧ isHealthy i.hc defaultConfig.latency_threshold_ms = true

instance (i : CycleInput) : Decidable (healthyInput i) := by
  unfold healthyInput; infer_instance

/-- A concrete datetime used to instantiate witnesses. -/
def exDT : PyDateTime := { year := 2025, month := 6, day := 15, hour := 12
                           minute := 30, second := 45, microsecond := 0 }

/-- A later concrete datetime used to instantiate witnesses. -/
def exDT2 : PyDateTime := { year := 2025, month := 6, day := 15, hour := 12
                            minute := 30, second := 45, microsecond := 125000 }

/-- A concrete healthy probe result. -/
def hcHealthy : HealthCheck :=
  { timestamp := exDT, success := true, latency_ms := some 20, error := none }

/-- A concrete unhealthy probe result. -/
def hcUnhealthy : HealthCheck :=
  { timestamp := exDT, success := false, latency_ms := none, error := some "HTTP timeout" }

/-- A concrete good cycle input carrying an unhealthy probe result. -/
def exInputU : CycleInput :=
  { record_found := true, current_dns_ip := "172.171.99.178", hc := hcUnhealthy
    write_ok := true, now := exDT }

/-- A concrete good cycle input carrying a healthy probe result. -/
def exInputH : CycleInput :=
  { record_found := true, current_dns_ip := "172.171.100.13", hc := hcHealthy
    write_ok := true, now := exDT }

/-- A concrete cycle input whose DNS write fails. -/
def exInputWF : CycleInput :=
  { record_found := true, current_dns_ip := "172.171.99.178", hc := hcUnhealthy
    write_ok := false, now := exDT }

/-- A concrete manual-override input whose DNS read and write succeed. -/
def exManual : ManualInput := { record_found := true, write_ok := true, now := exDT }

/-- A concrete manual-override input whose DNS write fails. -/
def exManualWF : ManualInput := { record_found := true, write_ok := false, now := exDT }

/-- A concrete state that is failed over, with some nonzero failure count. -/
def exFailedOverState : MonitorState :=
  { default_state with is_failed_over := true, consecutive_failures := 0 }

/-- A concrete state whose history exceeds the documented capacity. -/
def exFatState : MonitorState :=
  { default_state with health_history := List.replicate 101 hcHealthy }

/-- The states reachable from the fresh default state by check cycles and
manual overrides, under arbitrary environment outcomes. -/
inductive Reachable (cfg : Config) : MonitorState → Prop where
  | init : Reachable cfg default_state
  | cycle {s : MonitorState} (i : CycleInput) :
      Reachable cfg s → Reachable cfg (process_health_check cfg s i).state
  | mfailover {s : MonitorState} (i : ManualInput) :
      Reachable cfg s → Reachable cfg (manual_failover cfg s i).1
  | mrestore {s : MonitorState} (i : ManualInput) :
      Reachable cfg s → Reachable cfg (manual_restore cfg s i).1

theorem should_failover_eq (cfg : Config) (s : MonitorState) (hc : HealthCheck) :
    should_failover cfg s hc =
      (!s.is_failed_over && !isHealthy hc cfg.latency_threshold_ms &&
        decide (cfg.failure_threshold ≤ s.consecutive_failures)) := by
  unfold should_failover isHealthy
  cases s.is_failed_over <;> cases hsc : hc.success <;> simp
  rcases hl : hc.latency_ms with _ | x
  · simp [latTruthy]
  · simp only [latTruthy, latVal, hl, Option.getD_some]
    rcases le_or_lt x cfg.latency_threshold_ms with hle | hlt
    · simp [hle, not_lt.mpr hle]
    · have hx0 : x ≠ 0 ∨ cfg.latency_threshold_ms < 0 := by
        rcases lt_or_le cfg.latency_threshold_ms 0 with h | h
        · exact Or.inr h
        · exact Or.inl (by intro h0; rw [h0] at hlt; exact absurd h (not_le.mpr hlt))
      rcases hx0 with hx0 | hneg
      · simp [hx0, hlt, not_le.mpr hlt]
      · by_cases hx : x = 0
        · subst hx
          simp [not_le.mpr hlt]
        · simp [hx, hlt, not_le.mpr hlt]

theorem should_restore_eq (cfg : Config) (s : MonitorState) (hc : HealthCheck) :
    should_restore cfg s hc =
      (s.is_failed_over && isHealthy hc cfg.latency_threshold_ms &&
        decide (cfg.success_threshold ≤ s.consecutive_successes)) := by
  unfold should_restore isHealthy
  cases s.is_failed_over <;> cases hsc : hc.success <;> simp
  rcases hl : hc.latency_ms with _ | x
  · simp [latTruthy]
  · simp only [latTruthy, latVal, hl, Option.getD_some]
    rcases le_or_lt x cfg.latency_threshold_ms with hle | hlt
    · simp [hle, not_lt.mpr hle]
    · by_cases hx : x = 0
      · subst hx
        simp [not_le.mpr hlt]
      · simp [hx, hlt, not_le.mpr hlt]

theorem update_state_healthy (cfg : Config) (s : MonitorState) (hc : HealthCheck)
    (h : isHealthy hc cfg.latency_threshold_ms = true) :
    update_state cfg s hc =
      { s with health_history := stepHist s.health_history hc
               consecutive_failures := 0
               consecutive_successes := s.consecutive_successes + 1 } := by
  unfold update_state stepHist
  simp [h]

theorem update_state_unhealthy (cfg : Config) (s : MonitorState) (hc : HealthCheck)
    (h : isHealthy hc cfg.latency_threshold_ms = false) :
    update_state cfg s hc =
      { s with health_history := stepHist s.health_history hc
               consecutive_failures := s.consecutive_failures + 1
               consecutive_successes := 0 } := by
  unfold update_state stepHist
  simp [h]

theorem process_abort (cfg : Config) (s : MonitorState) (inp : CycleInput)
    (h : inp.record_found = false) :
    process_health_check cfg s inp =
      { state := s, dns_write := none, action_taken := false, ok := false } := by
  unfold process_health_check
  simp [h]

theorem process_fire_failover (cfg : Config) (s : MonitorState) (inp : CycleInput)
    (hrec : inp.record_found = true) (hw : inp.write_ok = true)
    (hsf : should_failover cfg
      (update_state cfg { s with current_ip := inp.current_dns_ip } inp.hc) inp.hc = true) :
    process_health_check cfg s inp =
      { state := { update_state cfg { s with current_ip := inp.current_dns_ip } inp.hc with
                     is_failed_over := true
                     last_failover := some inp.now
                     current_ip := cfg.backup_ip
                     consecutive_failures := 0 }
        dns_write := some cfg.backup_ip, action_taken := true, ok := true } := by
  unfold process_health_check
  simp [hrec, hw, hsf]

theorem process_failover_writefail (cfg : Config) (s : MonitorState) (inp : CycleInput)
    (hrec : inp.record_found = true) (hw : inp.write_ok = false)
    (hsf : should_failover cfg
      (update_state cfg { s with current_ip := inp.current_dns_ip } inp.hc) inp.hc = true) :
    process_health_check cfg s inp =
      { state := update_state cfg { s with current_ip := inp.current_dns_ip } inp.hc
        dns_write := none, action_taken := false, ok := true } := by
  unfold process_health_check
  simp [hrec, hw, hsf]

theorem process_fire_restore (cfg : Config) (s : MonitorState) (inp : CycleInput)
    (hrec : inp.record_found = true) (hw : inp.write_ok = true)
    (hsf : should_failover cfg
      (update_state cfg { s with current_ip := inp.current_dns_ip } inp.hc) inp.hc = false)
    (hsr : should_restore cfg
      (update_state cfg { s with current_ip := inp.current_dns_ip } inp.hc) inp.hc = true) :
    process_health_check cfg s inp =
      { state := { update_state cfg { s with current_ip := inp.current_dns_ip } inp.hc with
                     is_failed_over := false
                     last_restore := some inp.now
                     current_ip := cfg.primary_ip
                     consecutive_successes := 0 }
        dns_write := some cfg.primary_ip, action_taken := true, ok := true } := by
  unfold process_health_check
  simp [hrec, hw, hsf, hsr]

theorem process_restore_writefail (cfg : Config) (s : MonitorState) (inp : CycleInput)
    (hrec : inp.record_found = true) (hw : inp.write_ok = false)
    (hsf : should_failover cfg
      (update_state cfg { s with current_ip := inp.current_dns_ip } inp.hc) inp.hc = false)
    (hsr : should_restore cfg
      (update_state cfg { s with current_ip := inp.current_dns_ip } inp.hc) inp.hc = true) :
    process_health_check cfg s inp =
      { state := update_state cfg { s with current_ip := inp.current_dns_ip } inp.hc
        dns_write := none, action_taken := false, ok := true } := by
  unfold process_health_check
  simp [hrec, hw, hsf, hsr]

theorem update_state_fields (cfg : Config) (s : MonitorState) (hc : HealthCheck) :
    (update_state cfg s hc).is_failed_over = s.is_failed_over ∧
    (update_state cfg s hc).current_ip = s.current_ip ∧
    (update_state cfg s hc).last_failover = s.last_failover ∧
    (update_state cfg s hc).last_restore = s.last_restore ∧
    (update_state cfg s hc).health_history = stepHist s.health_history hc := by
  by_cases h : isHealthy hc cfg.latency_threshold_ms = true
  · rw [update_state_healthy cfg s hc h]
    exact ⟨rfl, rfl, rfl, rfl, rfl⟩
  · rw [update_state_unhealthy cfg s hc (Bool.not_eq_true _ ▸ h)]
    exact ⟨rfl, rfl, rfl, rfl, rfl⟩

theorem update_state_counters_healthy (cfg : Config) (s : MonitorState) (hc : HealthCheck)
    (h : isHealthy hc cfg.latency_threshold_ms = true) :
    (update_state cfg s hc).consecutive_failures = 0 ∧
    (update_state cfg s hc).consecutive_successes = s.consecutive_successes + 1 := by
  rw [update_state_healthy cfg s hc h]
  exact ⟨rfl, rfl⟩

theorem update_state_counters_unhealthy (cfg : Config) (s : MonitorState) (hc : HealthCheck)
    (h : isHealthy hc cfg.latency_threshold_ms = false) :
    (update_state cfg s hc).consecutive_failures = s.consecutive_failures + 1 ∧
    (update_state cfg s hc).consecutive_successes = 0 := by
  rw [update_state_unhealthy cfg s hc h]
  exact ⟨rfl, rfl⟩

theorem update_state_one_counter_zero (cfg : Config) (s : MonitorState) (hc : HealthCheck) :
    (update_state cfg s hc).consecutive_failures = 0 ∨
    (update_state cfg s hc).consecutive_successes = 0 := by
  by_cases h : isHealthy hc cfg.latency_threshold_ms = true
  · exact Or.inl (update_state_counters_healthy cfg s hc h).1
  · exact Or.inr (update_state_counters_unhealthy cfg s hc (Bool.not_eq_true _ ▸ h)).2

theorem process_no_action (cfg : Config) (s : MonitorState) (inp : CycleInput)
    (hrec : inp.record_found = true)
    (hsf : should_failover cfg
      (update_state cfg { s with current_ip := inp.current_dns_ip } inp.hc) inp.hc = false)
    (hsr : should_restore cfg
      (update_state cfg { s with current_ip := inp.current_dns_ip } inp.hc) inp.hc = false) :
    process_health_check cfg s inp =
      { state := update_state cfg { s with current_ip := inp.current_dns_ip } inp.hc
        dns_write := none, action_taken := false, ok := true } := by
  unfold process_health_check
  simp [hrec, hsf, hsr]

/-- Claim C4 is refuted by the code as written: when the state file exists
but holds unparseable content, or content that does not match the
`MonitorState` schema, `load_state` as invoked by `__init__` (which runs
it before `setup_logging`) raises `AttributeError` from inside its own
`except` handler and so DOES fail its caller, instead of returning the
fresh default state. The missing-file path does return the default, and
with a logger available the function would return the default on every
failure condition — the evident intent of the handler. -/
theorem C4_load_state_raises_before_logger_setup :
    init_load_state (.parseError "Expecting value") =
      .error "AttributeError: no attribute logger" ∧
    init_load_state (.schemaMismatch "unexpected keyword argument") =
      .error "AttributeError: no attribute logger" ∧
    init_load_state .missingFile = .ok default_state ∧
    (∀ s, init_load_state (.wellFormed s) = .ok s) ∧
    (∀ c : StoreCondition, load_state true c = .ok default_state ∨
      ∃ s, c = .wellFormed s ∧ load_state true c = .ok s) ∧
    default_state.consecutive_failures = 0 ∧
    default_state.consecutive_successes = 0 ∧
    default_state.health_history = [] ∧
    default_state.is_failed_over = false ∧
    default_state.current_ip = "" := by
  refine ⟨rfl, rfl, rfl, fun _ => rfl, ?_, rfl, rfl, rfl, rfl, rfl⟩
  intro c
  cases c with
  | missingFile => exact Or.inl rfl
  | parseError m => exact Or.inl rfl
  | schemaMismatch m => exact Or.inl rfl
  | wellFormed s => exact Or.inr ⟨s, rfl, rfl⟩

/-- Claim C7: `ping_with_latency` is total (it never propagates a network
exception), and every outcome in which the target did not respond
acceptably — timeout, connection failure on both protocols, or an
error-range status — yields `success = false` with a non-empty error. -/
theorem C7_probe_failures_encoded (now : PyDateTime) (tl : Rat)
    (a1 a2 : AttemptResult)
    (h : (ping_with_latency now tl a1 a2).success = false) :
    (∃ e, (ping_with_latency now tl a1 a2).error = some e ∧ e ≠ "") ∧
    (∀ lat, (ping_with_latency now tl (.timeout lat) a2).success = false) ∧
    (∀ st lat, 500 ≤ st →
      (ping_with_latency now tl (.response st lat) a2).success = false) ∧
    (ping_with_latency now tl .connectionError .connectionError).success = false ∧
    (ping_with_latency now tl .connectionError .otherError).success = false ∧
    (ping_with_latency now tl .otherError .connectionError).success = false ∧
    (ping_with_latency now tl .otherError .otherError).success = false := by
  refine ⟨?_, ?_, ?_, rfl, rfl, rfl, rfl⟩
  case refine_2 =>
    intro lat
    rfl
  case refine_3 =>
    intro st lat hst
    simp [ping_with_latency, attemptOutcome, Nat.not_lt.mpr hst]
  have hne : ∀ st : Nat, ("HTTP " ++ Nat.repr st) ≠ "" := by
    intro st hcontra
    have := congrArg String.data hcontra
    simp [String.data_append] at this
  cases a1 with
  | response st lat =>
    by_cases hst : st < 500
    · simp [ping_with_latency, attemptOutcome, hst] at h
    · exact ⟨"HTTP " ++ Nat.repr st, by simp [ping_with_latency, attemptOutcome, hst], hne st⟩
  | timeout lat =>
    exact ⟨"HTTP timeout", by simp [ping_with_latency, attemptOutcome], by decide⟩
  | connectionError =>
    cases a2 with
    | response st lat =>
      by_cases hst : st < 500
      · simp [ping_with_latency, attemptOutcome, hst] at h
      · exact ⟨"HTTP " ++ Nat.repr st, by simp [ping_with_latency, attemptOutcome, hst], hne st⟩
    | timeout lat =>
      exact ⟨"HTTP timeout", by simp [ping_with_latency, attemptOutcome], by decide⟩
    | connectionError =>
      exact ⟨"HTTP connection failed", by simp [ping_with_latency, attemptOutcome], by decide⟩
    | otherError =>
      exact ⟨"HTTP connection failed", by simp [ping_with_latency, attemptOutcome], by decide⟩
  | otherError =>
    cases a2 with
    | response st lat =>
      by_cases hst : st < 500
      · simp [ping_with_latency, attemptOutcome, hst] at h
      · exact ⟨"HTTP " ++ Nat.repr st, by simp [ping_with_latency, attemptOutcome, hst], hne st⟩
    | timeout lat =>
      exact ⟨"HTTP timeout", by simp [ping_with_latency, attemptOutcome], by decide⟩
    | connectionError =>
      exact ⟨"HTTP connection failed", by simp [ping_with_latency, attemptOutcome], by decide⟩
    | otherError =>
      exact ⟨"HTTP connection failed", by simp [ping_with_latency, attemptOutcome], by decide⟩

/-- Witness for C7 at a concrete probe outcome: both protocols time out or
refuse, and the result carries a non-empty error. -/
theorem C7_probe_failures_encoded_witness :
    ∃ e, (ping_with_latency exDT 5000 .connectionError (.timeout 5000)).error = some e ∧
      e ≠ "" :=
  (C7_probe_failures_encoded exDT 5000 .connectionError (.timeout 5000) (by decide)).1

/-- Claim C10: a successful manual failover changes only `is_failed_over`,
`last_failover` and `current_ip`; the counters, `last_restore` and the
health history are untouched — in particular `consecutive_failures` is not
reset to 0, unlike the automatic failover commit. -/
theorem C10_manual_failover_frame (cfg : Config) (s : MonitorState) (i : ManualInput)
    (hfo : s.is_failed_over = false) (hrec : i.record_found = true)
    (hw : i.write_ok = true) :
    manual_failover cfg s i =
      ({ s with is_failed_over := true
                last_failover := some i.now
                current_ip := cfg.backup_ip }, true) ∧
    (manual_failover cfg s i).1.consecutive_failures = s.consecutive_failures ∧
    (manual_failover cfg s i).1.consecutive_successes = s.consecutive_successes ∧
    (manual_failover cfg s i).1.last_restore = s.last_restore ∧
    (manual_failover cfg s i).1.health_history = s.health_history := by
  unfold manual_failover
  simp [hfo, hrec, hw]

/-- Witness for C10: a manual failover from a state with a nonzero failure
count keeps that count at 1 rather than resetting it. -/
theorem C10_manual_failover_frame_witness :
    (manual_failover defaultConfig { default_state with consecutive_failures := 1 }
        exManual).1.consecutive_failures = 1 ∧
    (manual_failover defaultConfig { default_state with consecutive_failures := 1 }
        exManual).1.health_history = [] :=
  ⟨(C10_manual_failover_frame defaultConfig
      { default_state with consecutive_failures := 1 } exManual rfl rfl rfl).2.1,
   (C10_manual_failover_frame defaultConfig
      { default_state with consecutive_failures := 1 } exManual rfl rfl rfl).2.2.2.2⟩

/-- Counterexample for C6: `manual_failover` invoked while already failed
over returns the value `false` — the same result as a failed DNS write, and
the CLI maps it to the error exit code 1 — so it does not return a
distinguishable non-error "already in state" result; symmetrically for
`manual_restore` when not failed over. -/
theorem C6_counterexample :
    manual_failover defaultConfig exFailedOverState exManual = (exFailedOverState, false) ∧
    command_exit_code (manual_failover defaultConfig exFailedOverState exManual).2 = 1 ∧
    manual_failover defaultConfig default_state exManualWF = (default_state, false) ∧
    manual_restore defaultConfig default_state exManual = (default_state, false) ∧
    command_exit_code (manual_restore defaultConfig default_state exManual).2 = 1 := by
  decide

/-- Claim C6 as amended: `manual_failover` when already failed over (and
`manual_restore` when not failed over) is a no-op that mutates no state,
but it returns `False` — the same error indicator a failed DNS write
produces, which the CLI maps to exit code 1 — rather than a distinguishable
non-error result. -/
theorem C6_amended_noop_returns_false (cfg : Config) (s t : MonitorState)
    (i j : ManualInput) (hfo : s.is_failed_over = true)
    (hnfo : t.is_failed_over = false) :
    manual_failover cfg s i = (s, false) ∧
    command_exit_code (manual_failover cfg s i).2 = 1 ∧
    manual_restore cfg t j = (t, false) ∧
    command_exit_code (manual_restore cfg t j).2 = 1 := by
  unfold manual_failover manual_restore command_exit_code
  simp [hfo, hnfo]

/-- Witness for the amended C6 at concrete states and inputs. -/
theorem C6_amended_noop_returns_false_witness :
    manual_failover defaultConfig exFailedOverState exManual = (exFailedOverState, false) ∧
    command_exit_code (manual_failover defaultConfig exFailedOverState exManual).2 = 1 ∧
    manual_restore defaultConfig default_state exManual = (default_state, false) ∧
    command_exit_code (manual_restore defaultConfig default_state exManual).2 = 1 :=
  C6_amended_noop_returns_false defaultConfig exFailedOverState default_state
    exManual exManual rfl rfl

/-- Claim C8: in every state reachable from the default state by check
cycles and manual overrides, the two consecutive counters are never both
nonzero. -/
theorem C8_counters_never_both_nonzero (cfg : Config) (s : MonitorState)
    (h : Reachable cfg s) :
    s.consecutive_failures = 0 ∨ s.consecutive_successes = 0 := by
  induction h with
  | init => exact Or.inl rfl
  | @cycle t i _ ih =>
    by_cases hrec : i.record_found = true
    · have hupd := update_state_one_counter_zero cfg
        { t with current_ip := i.current_dns_ip } i.hc
      by_cases hsf : should_failover cfg
          (update_state cfg { t with current_ip := i.current_dns_ip } i.hc) i.hc = true
      · by_cases hw : i.write_ok = true
        · rw [process_fire_failover cfg t i hrec hw hsf]
          exact Or.inl rfl
        · rw [process_failover_writefail cfg t i hrec (Bool.not_eq_true _ ▸ hw) hsf]
          exact hupd
      · have hsf' : should_failover cfg
            (update_state cfg { t with current_ip := i.current_dns_ip } i.hc) i.hc = false :=
          Bool.not_eq_true _ ▸ hsf
        by_cases hsr : should_restore cfg
            (update_state cfg { t with current_ip := i.current_dns_ip } i.hc) i.hc = true
        · by_cases hw : i.write_ok = true
          · rw [process_fire_restore cfg t i hrec hw hsf' hsr]
            exact Or.inr rfl
          · rw [process_restore_writefail cfg t i hrec (Bool.not_eq_true _ ▸ hw) hsf' hsr]
            exact hupd
        · rw [process_no_action cfg t i hrec hsf' (Bool.not_eq_true _ ▸ hsr)]
          exact hupd
    · rw [process_abort cfg t i (Bool.not_eq_true _ ▸ hrec)]
      exact ih
  | @mfailover t i _ ih =>
    unfold manual_failover
    by_cases hfo : t.is_failed_over = true
    · simpa [hfo] using ih
    · by_cases hrec : i.record_found = true
      · by_cases hw : i.write_ok = true
        · simpa [hfo, hrec, hw] using ih
        · simpa [hfo, hrec, hw] using ih
      · simpa [hfo, hrec] using ih
  | @mrestore t i _ ih =>
    unfold manual_restore
    by_cases hfo : t.is_failed_over = true
    · by_cases hrec : i.record_found = true
      · by_cases hw : i.write_ok = true
        · simp [hfo, hrec, hw]
        · simpa [hfo, hrec, hw] using ih
      · simpa [hfo, hrec] using ih
    · simpa [hfo] using ih

theorem step_counters_unhealthy (cfg : Config) (x : MonitorState) (v : String)
    (hc : HealthCheck) (h : isHealthy hc cfg.latency_threshold_ms = false) :
    (update_state cfg { x with current_ip := v } hc).consecutive_failures
        = x.consecutive_failures + 1 ∧
    (update_state cfg { x with current_ip := v } hc).consecutive_successes = 0 ∧
    (update_state cfg { x with current_ip := v } hc).is_failed_over = x.is_failed_over :=
  ⟨(update_state_counters_unhealthy cfg _ hc h).1,
   (update_state_counters_unhealthy cfg _ hc h).2,
   (update_state_fields cfg _ hc).1⟩

theorem step_counters_healthy (cfg : Config) (x : MonitorState) (v : String)
    (hc : HealthCheck) (h : isHealthy hc cfg.latency_threshold_ms = true) :
    (update_state cfg { x with current_ip := v } hc).consecutive_failures = 0 ∧
    (update_state cfg { x with current_ip := v } hc).consecutive_successes
        = x.consecutive_successes + 1 ∧
    (update_state cfg { x with current_ip := v } hc).is_failed_over = x.is_failed_over :=
  ⟨(update_state_counters_healthy cfg _ hc h).1,
   (update_state_counters_healthy cfg _ hc h).2,
   (update_state_fields cfg _ hc).1⟩

theorem refire_failover (cfg : Config) (s2 : MonitorState) (i2 : CycleInput)
    (hfo : s2.is_failed_over = false)
    (hthr : cfg.failure_threshold ≤ s2.consecutive_failures)
    (hunh2 : isHealthy i2.hc cfg.latency_threshold_ms = false) :
    should_failover cfg
      (update_state cfg { s2 with current_ip := i2.current_dns_ip } i2.hc) i2.hc = true := by
  rw [should_failover_eq]
  have h1 := (update_state_fields cfg { s2 with current_ip := i2.current_dns_ip } i2.hc).1
  have h2 := (update_state_counters_unhealthy cfg
    { s2 with current_ip := i2.current_dns_ip } i2.hc hunh2).1
  have hp1 : ({ s2 with current_ip := i2.current_dns_ip } : MonitorState).is_failed_over
      = s2.is_failed_over := rfl
  have hp2 : ({ s2 with current_ip := i2.current_dns_ip } : MonitorState).consecutive_failures
      = s2.consecutive_failures := rfl
  rw [Bool.and_eq_true, Bool.and_eq_true]
  refine ⟨⟨?_, by rw [hunh2]; rfl⟩, ?_⟩
  · rw [h1, hp1, hfo]
    rfl
  · rw [h2, hp2]
    simp only [decide_eq_true_eq]
    omega

theorem refire_restore (cfg : Config) (s2 : MonitorState) (i2 : CycleInput)
    (hfo : s2.is_failed_over = true)
    (hthr : cfg.success_threshold ≤ s2.consecutive_successes)
    (hhea2 : isHealthy i2.hc cfg.latency_threshold_ms = true) :
    should_restore cfg
      (update_state cfg { s2 with current_ip := i2.current_dns_ip } i2.hc) i2.hc = true := by
  rw [should_restore_eq]
  have h1 := (update_state_fields cfg { s2 with current_ip := i2.current_dns_ip } i2.hc).1
  have h2 := (update_state_counters_healthy cfg
    { s2 with current_ip := i2.current_dns_ip } i2.hc hhea2).2
  have hp1 : ({ s2 with current_ip := i2.current_dns_ip } : MonitorState).is_failed_over
      = s2.is_failed_over := rfl
  have hp2 : ({ s2 with current_ip := i2.current_dns_ip } : MonitorState).consecutive_successes
      = s2.consecutive_successes := rfl
  rw [Bool.and_eq_true, Bool.and_eq_true]
  refine ⟨⟨by rw [h1, hp1, hfo], by rw [hhea2]⟩, ?_⟩
  rw [h2, hp2]
  simp only [decide_eq_true_eq]
  omega

theorem run_healthy_no_restore (inputs : List CycleInput) :
    ∀ s : MonitorState, s.is_failed_over = true →
    (∀ i ∈ inputs, healthyInput i) →
    s.consecutive_successes + inputs.length < 20 →
    (run_cycles defaultConfig s inputs).1.is_failed_over = true ∧
    (run_cycles defaultConfig s inputs).1.consecutive_successes
        = s.consecutive_successes + inputs.length ∧
    (∀ r ∈ (run_cycles defaultConfig s inputs).2, r.dns_write = none) := by
  induction inputs with
  | nil =>
    intro s hfo _ _
    exact ⟨hfo, by simp [run_cycles], by simp [run_cycles]⟩
  | cons i is ih =>
    intro s hfo hall hlen
    obtain ⟨⟨hrec, hw⟩, hh⟩ := hall i (List.mem_cons_self i is)
    have hstep := step_counters_healthy defaultConfig s i.current_dns_ip i.hc hh
    have hsf : should_failover defaultConfig
        (update_state defaultConfig { s with current_ip := i.current_dns_ip } i.hc)
        i.hc = false := by
      rw [should_failover_eq, hstep.2.2, hfo]
      rfl
    have hlen' : s.consecutive_successes + (i :: is).length < 20 := hlen
    rw [List.length_cons] at hlen'
    have hsr : should_restore defaultConfig
        (update_state defaultConfig { s with current_ip := i.current_dns_ip } i.hc)
        i.hc = false := by
      rw [should_restore_eq, hstep.2.1]
      have hnle : ¬ (defaultConfig.success_threshold ≤ s.consecutive_successes + 1) := by
        show ¬ (20 ≤ s.consecutive_successes + 1)
        omega
      simp [hnle]
    have hr := process_no_action defaultConfig s i hrec hsf hsr
    have ihh := ih (update_state defaultConfig { s with current_ip := i.current_dns_ip } i.hc)
      (by rw [hstep.2.2]; exact hfo)
      (fun j hj => hall j (List.mem_cons_of_mem i hj))
      (by rw [hstep.2.1]; omega)
    simp only [run_cycles, hr]
    refine ⟨ihh.1, ?_, ?_⟩
    · rw [ihh.2.1, hstep.2.1, List.length_cons]
      omega
    · intro r hr2
      rcases List.mem_cons.mp hr2 with h | h
      · rw [h]
      · exact ihh.2.2 r h

/-- Claim C2: while failed over (with the default `success_threshold = 20`),
a restore happens in a cycle iff the check is healthy and the post-update
`consecutive_successes` reaches the threshold; from a freshly failed-over
state, 19 consecutive healthy cycles commit nothing, the 20th writes the
primary IP, clears `is_failed_over`, sets `last_restore` and resets
`consecutive_successes` to 0; and any single unhealthy check resets
`consecutive_successes` to 0. -/
theorem C2_restore_after_stability :
    (∀ (s : MonitorState) (inp : CycleInput), s.is_failed_over = true →
      inp.record_found = true → inp.write_ok = true →
      (((process_health_check defaultConfig s inp).dns_write
          = some defaultConfig.primary_ip) ↔
        (isHealthy inp.hc defaultConfig.latency_threshold_ms = true ∧
          defaultConfig.success_threshold ≤ s.consecutive_successes + 1)) ∧
      ((process_health_check defaultConfig s inp).dns_write
          = some defaultConfig.primary_ip →
        (process_health_check defaultConfig s inp).state.is_failed_over = false ∧
        (process_health_check defaultConfig s inp).state.last_restore = some inp.now ∧
        (process_health_check defaultConfig s inp).state.consecutive_successes = 0)) ∧
    (∀ (s0 : MonitorState) (inputs : List CycleInput) (i20 : CycleInput),
      s0.is_failed_over = true → s0.consecutive_successes = 0 →
      inputs.length = 19 → (∀ i ∈ inputs, healthyInput i) → healthyInput i20 →
      (∀ r ∈ (run_cycles defaultConfig s0 inputs).2, r.dns_write = none) ∧
      (run_cycles defaultConfig s0 inputs).1.is_failed_over = true ∧
      (run_cycles defaultConfig s0 inputs).1.consecutive_successes = 19 ∧
      (process_health_check defaultConfig
          (run_cycles defaultConfig s0 inputs).1 i20).dns_write
        = some defaultConfig.primary_ip ∧
      (process_health_check defaultConfig
          (run_cycles defaultConfig s0 inputs).1 i20).state.is_failed_over = false ∧
      (process_health_check defaultConfig
          (run_cycles defaultConfig s0 inputs).1 i20).state.last_restore
        = some i20.now ∧
      (process_health_check defaultConfig
          (run_cycles defaultConfig s0 inputs).1 i20).state.consecutive_successes = 0) ∧
    (∀ (s : MonitorState) (inp : CycleInput), s.is_failed_over = true →
      inp.record_found = true →
      isHealthy inp.hc defaultConfig.latency_threshold_ms = false →
      (process_health_check defaultConfig s inp).state.consecutive_successes = 0 ∧
      (process_health_check defaultConfig s inp).dns_write = none) := by
  have hiff : ∀ (s : MonitorState) (inp : CycleInput), s.is_failed_over = true →
      inp.record_found = true → inp.write_ok = true →
      (((process_health_check defaultConfig s inp).dns_write
          = some defaultConfig.primary_ip) ↔
        (isHealthy inp.hc defaultConfig.latency_threshold_ms = true ∧
          defaultConfig.success_threshold ≤ s.consecutive_successes + 1)) ∧
      ((process_health_check defaultConfig s inp).dns_write
          = some defaultConfig.primary_ip →
        (process_health_check defaultConfig s inp).state.is_failed_over = false ∧
        (process_health_check defaultConfig s inp).state.last_restore = some inp.now ∧
        (process_health_check defaultConfig s inp).state.consecutive_successes = 0) := by
    intro s inp hfo hrec hw
    by_cases hh : isHealthy inp.hc defaultConfig.latency_threshold_ms = true
    · have hstep := step_counters_healthy defaultConfig s inp.current_dns_ip inp.hc hh
      have hsf : should_failover defaultConfig
          (update_state defaultConfig { s with current_ip := inp.current_dns_ip } inp.hc)
          inp.hc = false := by
        rw [should_failover_eq, hstep.2.2, hfo]
        rfl
      by_cases hthr : defaultConfig.success_threshold ≤ s.consecutive_successes + 1
      · have hsr : should_restore defaultConfig
            (update_state defaultConfig { s with current_ip := inp.current_dns_ip } inp.hc)
            inp.hc = true := by
          rw [should_restore_eq, hstep.2.2, hstep.2.1, hfo, hh]
          simp [hthr]
        have hr := process_fire_restore defaultConfig s inp hrec hw hsf hsr
        refine ⟨⟨fun _ => ⟨hh, hthr⟩, fun _ => ?_⟩, fun _ => ⟨?_, ?_, ?_⟩⟩ <;>
          simp only [hr]
      · have hsr : should_restore defaultConfig
            (update_state defaultConfig { s with current_ip := inp.current_dns_ip } inp.hc)
            inp.hc = false := by
          rw [should_restore_eq, hstep.2.1]
          simp [hthr]
        have hr := process_no_action defaultConfig s inp hrec hsf hsr
        refine ⟨⟨fun hcontra => ?_, fun hrhs => absurd hrhs.2 hthr⟩, fun hcontra => ?_⟩ <;>
          · rw [hr] at hcontra
            simp at hcontra
    · have hh' : isHealthy inp.hc defaultConfig.latency_threshold_ms = false :=
        Bool.not_eq_true _ ▸ hh
      have hstep := step_counters_unhealthy defaultConfig s inp.current_dns_ip inp.hc hh'
      have hsf : should_failover defaultConfig
          (update_state defaultConfig { s with current_ip := inp.current_dns_ip } inp.hc)
          inp.hc = false := by
        rw [should_failover_eq, hstep.2.2, hfo]
        rfl
      have hsr : should_restore defaultConfig
          (update_state defaultConfig { s with current_ip := inp.current_dns_ip } inp.hc)
          inp.hc = false := by
        rw [should_restore_eq, hh']
        simp
      have hr := process_no_action defaultConfig s inp hrec hsf hsr
      refine ⟨⟨fun hcontra => ?_, fun hrhs => absurd hrhs.1 hh⟩, fun hcontra => ?_⟩ <;>
        · rw [hr] at hcontra
          simp at hcontra
  refine ⟨hiff, ?_, ?_⟩
  · intro s0 inputs i20 hfo hcs hlen hall h20
    have hrun := run_healthy_no_restore inputs s0 hfo hall (by rw [hcs, hlen]; omega)
    have hcs19 : (run_cycles defaultConfig s0 inputs).1.consecutive_successes = 19 := by
      rw [hrun.2.1, hcs, hlen]
    obtain ⟨⟨hrec20, hw20⟩, hh20⟩ := h20
    have hfire := hiff (run_cycles defaultConfig s0 inputs).1 i20 hrun.1 hrec20 hw20
    have hthr : defaultConfig.success_threshold ≤
        (run_cycles defaultConfig s0 inputs).1.consecutive_successes + 1 := by
      rw [hcs19]
      show 20 ≤ 20
      omega
    have hwrite := hfire.1.mpr ⟨hh20, hthr⟩
    have heff := hfire.2 hwrite
    exact ⟨hrun.2.2, hrun.1, hcs19, hwrite, heff.1, heff.2.1, heff.2.2⟩
  · intro s inp hfo hrec hh
    have hstep := step_counters_unhealthy defaultConfig s inp.current_dns_ip inp.hc hh
    have hsf : should_failover defaultConfig
        (update_state defaultConfig { s with current_ip := inp.current_dns_ip } inp.hc)
        inp.hc = false := by
      rw [should_failover_eq, hstep.2.2, hfo]
      rfl
    have hsr : should_restore defaultConfig
        (update_state defaultConfig { s with current_ip := inp.current_dns_ip } inp.hc)
        inp.hc = false := by
      rw [should_restore_eq, hh]
      simp
    have hr := process_no_action defaultConfig s inp hrec hsf hsr
    constructor
    · simp only [hr]
      exact hstep.2.1
    · simp only [hr]

/-- Witness for C2: from a concrete freshly failed-over state, 19 concrete
healthy cycles leave the success counter at 19 without a restore, and the
20th healthy cycle writes the primary IP back. -/
theorem C2_restore_after_stability_witness :
    (run_cycles defaultConfig exFailedOverState (List.replicate 19 exInputH)).1.consecutive_successes
      = 19 ∧
    (∀ r ∈ (run_cycles defaultConfig exFailedOverState (List.replicate 19 exInputH)).2,
      r.dns_write = none) ∧
    (process_health_check defaultConfig
        (run_cycles defaultConfig exFailedOverState (List.replicate 19 exInputH)).1
        exInputH).dns_write = some defaultConfig.primary_ip := by
  have h := C2_restore_after_stability.2.1 exFailedOverState
    (List.replicate 19 exInputH) exInputH rfl rfl (by simp)
    (fun i hi => by rw [List.eq_of_mem_replicate hi]; decide) (by decide)
  exact ⟨h.2.2.1, h.1, h.2.2.2.1⟩

/-- Claim C3: when a failover or restore transition is triggered but the
DNS write fails, the cycle commits nothing: `is_failed_over` keeps its
prior value, the triggering counter keeps its (nonzero) post-update value
instead of being reset, and the transition condition evaluates to true
again on the state the cycle leaves behind — in particular it re-fires on
the next cycle whenever that cycle's check points the same way. -/
theorem C3_write_failure_no_commit (cfg : Config) (s : MonitorState) (inp : CycleInput)
    (s2 : MonitorState) (hrec : inp.record_found = true) (hw : inp.write_ok = false)
    (hs2 : s2 = update_state cfg { s with current_ip := inp.current_dns_ip } inp.hc) :
    (should_failover cfg s2 inp.hc = true →
      (process_health_check cfg s inp).state = s2 ∧
      (process_health_check cfg s inp).dns_write = none ∧
      (process_health_check cfg s inp).action_taken = false ∧
      (process_health_check cfg s inp).state.is_failed_over = s.is_failed_over ∧
      (process_health_check cfg s inp).state.consecutive_failures =
        s.consecutive_failures + 1 ∧
      should_failover cfg (process_health_check cfg s inp).state inp.hc = true ∧
      (∀ i2 : CycleInput, i2.record_found = true →
        isHealthy i2.hc cfg.latency_threshold_ms = false →
          should_failover cfg
            (update_state cfg
              { (process_health_check cfg s inp).state with
                  current_ip := i2.current_dns_ip } i2.hc) i2.hc = true)) ∧
    (should_restore cfg s2 inp.hc = true →
      (process_health_check cfg s inp).state = s2 ∧
      (process_health_check cfg s inp).dns_write = none ∧
      (process_health_check cfg s inp).action_taken = false ∧
      (process_health_check cfg s inp).state.is_failed_over = s.is_failed_over ∧
      (process_health_check cfg s inp).state.consecutive_successes =
        s.consecutive_successes + 1 ∧
      should_restore cfg (process_health_check cfg s inp).state inp.hc = true ∧
      (∀ i2 : CycleInput, i2.record_found = true →
        isHealthy i2.hc cfg.latency_threshold_ms = true →
          should_restore cfg
            (update_state cfg
              { (process_health_check cfg s inp).state with
                  current_ip := i2.current_dns_ip } i2.hc) i2.hc = true)) := by
  subst hs2
  constructor
  · intro hsf
    have hr := process_failover_writefail cfg s inp hrec hw hsf
    rw [hr]
    have hchar := should_failover_eq cfg
      (update_state cfg { s with current_ip := inp.current_dns_ip } inp.hc) inp.hc
    rw [hsf] at hchar
    have hnfo : (update_state cfg { s with current_ip := inp.current_dns_ip }
        inp.hc).is_failed_over = false := by
      rcases Bool.eq_false_or_eq_true (update_state cfg
          { s with current_ip := inp.current_dns_ip } inp.hc).is_failed_over with h | h
      · rw [h] at hchar; simp at hchar
      · exact h
    have hunh : isHealthy inp.hc cfg.latency_threshold_ms = false := by
      rcases Bool.eq_false_or_eq_true (isHealthy inp.hc cfg.latency_threshold_ms) with h | h
      · rw [h] at hchar; simp at hchar
      · exact h
    have hthr : cfg.failure_threshold ≤
        (update_state cfg { s with current_ip := inp.current_dns_ip }
          inp.hc).consecutive_failures := by
      rw [hnfo, hunh] at hchar
      simpa using hchar.symm
    have hcnt := update_state_counters_unhealthy cfg
      { s with current_ip := inp.current_dns_ip } inp.hc hunh
    have hflag := (update_state_fields cfg
      { s with current_ip := inp.current_dns_ip } inp.hc).1
    refine ⟨rfl, rfl, rfl, by rw [hflag], by rw [hcnt.1], hsf, ?_⟩
    intro i2 _ hunh2
    exact refire_failover cfg _ i2 hnfo hthr hunh2
  · intro hsr
    have hchar := should_restore_eq cfg
      (update_state cfg { s with current_ip := inp.current_dns_ip } inp.hc) inp.hc
    rw [hsr] at hchar
    have hfot : (update_state cfg { s with current_ip := inp.current_dns_ip }
        inp.hc).is_failed_over = true := by
      rcases Bool.eq_false_or_eq_true (update_state cfg
          { s with current_ip := inp.current_dns_ip } inp.hc).is_failed_over with h | h
      · exact h
      · rw [h] at hchar; simp at hchar
    have hhea : isHealthy inp.hc cfg.latency_threshold_ms = true := by
      rcases Bool.eq_false_or_eq_true (isHealthy inp.hc cfg.latency_threshold_ms) with h | h
      · exact h
      · rw [h] at hchar; simp at hchar
    have hthr : cfg.success_threshold ≤
        (update_state cfg { s with current_ip := inp.current_dns_ip }
          inp.hc).consecutive_successes := by
      rw [hfot, hhea] at hchar
      simpa using hchar.symm
    have hsf' : should_failover cfg
        (update_state cfg { s with current_ip := inp.current_dns_ip } inp.hc) inp.hc
          = false := by
      rw [should_failover_eq, hfot]
      rfl
    have hr := process_restore_writefail cfg s inp hrec hw hsf' hsr
    rw [hr]
    have hcnt := update_state_counters_healthy cfg
      { s with current_ip := inp.current_dns_ip } inp.hc hhea
    have hflag := (update_state_fields cfg
      { s with current_ip := inp.current_dns_ip } inp.hc).1
    refine ⟨rfl, rfl, rfl, by rw [hflag], by rw [hcnt.2], hsr, ?_⟩
    intro i2 _ hhea2
    exact refire_restore cfg _ i2 hfot hthr hhea2

/-- Witness for C3: one failing write during a triggered failover leaves
the failure counter at 2 and the flag down, and a triggered restore with a
failing write leaves the success counter at 20 and the flag up. -/
theorem C3_write_failure_no_commit_witness :
    (process_health_check defaultConfig { default_state with consecutive_failures := 1 }
        exInputWF).state.consecutive_failures = 2 ∧
    (process_health_check defaultConfig { default_state with consecutive_failures := 1 }
        exInputWF).state.is_failed_over = false ∧
    (process_health_check defaultConfig { default_state with consecutive_failures := 1 }
        exInputWF).dns_write = none ∧
    (process_health_check defaultConfig
        { default_state with is_failed_over := true, consecutive_successes := 19 }
        { exInputH with write_ok := false }).state.consecutive_successes = 20 ∧
    (process_health_check defaultConfig
        { default_state with is_failed_over := true, consecutive_successes := 19 }
        { exInputH with write_ok := false }).state.is_failed_over = true := by
  have h1 := (C3_write_failure_no_commit defaultConfig
    { default_state with consecutive_failures := 1 } exInputWF _ rfl rfl rfl).1
    (by decide)
  have h2 := (C3_write_failure_no_commit defaultConfig
    { default_state with is_failed_over := true, consecutive_successes := 19 }
    { exInputH with write_ok := false } _ rfl rfl rfl).2 (by decide)
  exact ⟨h1.2.2.2.2.1, h1.2.2.2.1, h1.2.1, h2.2.2.2.2.1, h2.2.2.2.1⟩

/-- Claim C1: from any state that is not failed over, a sequence of
`failure_threshold = 2` consecutive unhealthy checks (with the DNS provider
reachable and writable) triggers the failover transition exactly once, on
the check whose post-update `consecutive_failures` reaches the threshold:
that cycle writes the backup IP, sets `is_failed_over`, sets
`last_failover` to the cycle's clock value, and resets
`consecutive_failures` to 0; the other cycle of the pair commits nothing. -/
theorem C1_failover_exactly_once (s : MonitorState) (i1 i2 : CycleInput)
    (hfo : s.is_failed_over = false)
    (h1 : unhealthyInput i1) (h2 : unhealthyInput i2) :
    (s.consecutive_failures = 0 →
      (process_health_check defaultConfig s i1).dns_write = none ∧
      (process_health_check defaultConfig s i1).state.is_failed_over = false ∧
      (process_health_check defaultConfig s i1).state.consecutive_failures = 1 ∧
      (process_health_check defaultConfig
          (process_health_check defaultConfig s i1).state i2).dns_write =
        some defaultConfig.backup_ip ∧
      (process_health_check defaultConfig
          (process_health_check defaultConfig s i1).state i2).state.is_failed_over
        = true ∧
      (process_health_check defaultConfig
          (process_health_check defaultConfig s i1).state i2).state.last_failover =
        some i2.now ∧
      (process_health_check defaultConfig
          (process_health_check defaultConfig s i1).state i2).state.consecutive_failures
        = 0) ∧
    (s.consecutive_failures ≠ 0 →
      (process_health_check defaultConfig s i1).dns_write =
        some defaultConfig.backup_ip ∧
      (process_health_check defaultConfig s i1).state.is_failed_over = true ∧
      (process_health_check defaultConfig s i1).state.last_failover = some i1.now ∧
      (process_health_check defaultConfig s i1).state.consecutive_failures = 0 ∧
      (process_health_check defaultConfig
          (process_health_check defaultConfig s i1).state i2).dns_write = none ∧
      (process_health_check defaultConfig
          (process_health_check defaultConfig s i1).state i2).state.is_failed_over
        = true) := by
  obtain ⟨⟨hrec1, hw1⟩, hunh1⟩ := h1
  obtain ⟨⟨hrec2, hw2⟩, hunh2⟩ := h2
  constructor
  · intro hcf
    have hstep1 := step_counters_unhealthy defaultConfig s i1.current_dns_ip i1.hc hunh1
    have hu1f : (update_state defaultConfig { s with current_ip := i1.current_dns_ip }
        i1.hc).consecutive_failures = 1 := by
      rw [hstep1.1, hcf]
    have hu1fo : (update_state defaultConfig { s with current_ip := i1.current_dns_ip }
        i1.hc).is_failed_over = false := by
      rw [hstep1.2.2, hfo]
    have hsf1 : should_failover defaultConfig
        (update_state defaultConfig { s with current_ip := i1.current_dns_ip } i1.hc)
        i1.hc = false := by
      rw [should_failover_eq, hu1f]
      simp [defaultConfig]
    have hsr1 : should_restore defaultConfig
        (update_state defaultConfig { s with current_ip := i1.current_dns_ip } i1.hc)
        i1.hc = false := by
      rw [should_restore_eq, hu1fo]
      rfl
    have hr1 := process_no_action defaultConfig s i1 hrec1 hsf1 hsr1
    have hstep2 := step_counters_unhealthy defaultConfig
      (update_state defaultConfig { s with current_ip := i1.current_dns_ip } i1.hc)
      i2.current_dns_ip i2.hc hunh2
    have hsf2 : should_failover defaultConfig
        (update_state defaultConfig
          { update_state defaultConfig { s with current_ip := i1.current_dns_ip } i1.hc with
              current_ip := i2.current_dns_ip } i2.hc) i2.hc = true := by
      rw [should_failover_eq, hstep2.2.2, hu1fo, hstep2.1, hu1f, hunh2]
      decide
    have hr2 := process_fire_failover defaultConfig
      (update_state defaultConfig { s with current_ip := i1.current_dns_ip } i1.hc)
      i2 hrec2 hw2 hsf2
    refine ⟨?_, ?_, ?_, ?_, ?_, ?_, ?_⟩ <;>
      simp only [hr1, hr2] <;>
      first
        | rfl
        | exact hu1fo
        | exact hu1f
  · intro hcf
    have hstep1 := step_counters_unhealthy defaultConfig s i1.current_dns_ip i1.hc hunh1
    have hsf1 : should_failover defaultConfig
        (update_state defaultConfig { s with current_ip := i1.current_dns_ip } i1.hc)
        i1.hc = true := by
      rw [should_failover_eq, hstep1.2.2, hstep1.1, hunh1, hfo]
      have hthr : defaultConfig.failure_threshold ≤ s.consecutive_failures + 1 := by
        show 2 ≤ s.consecutive_failures + 1
        omega
      simp [hthr]
    have hr1 := process_fire_failover defaultConfig s i1 hrec1 hw1 hsf1
    have hfo2 : (process_health_check defaultConfig s i1).state.is_failed_over = true := by
      simp only [hr1]
    have hsf2 : should_failover defaultConfig
        (update_state defaultConfig
          { (process_health_check defaultConfig s i1).state with
              current_ip := i2.current_dns_ip } i2.hc) i2.hc = false := by
      rw [should_failover_eq, (update_state_fields defaultConfig _ i2.hc).1]
      have hp : ({ (process_health_check defaultConfig s i1).state with
          current_ip := i2.current_dns_ip } : MonitorState).is_failed_over
          = (process_health_check defaultConfig s i1).state.is_failed_over := rfl
      rw [hp, hfo2]
      rfl
    have hsr2 : should_restore defaultConfig
        (update_state defaultConfig
          { (process_health_check defaultConfig s i1).state with
              current_ip := i2.current_dns_ip } i2.hc) i2.hc = false := by
      rw [should_restore_eq, hunh2]
      simp
    have hr2 := process_no_action defaultConfig
      (process_health_check defaultConfig s i1).state i2 hrec2 hsf2 hsr2
    refine ⟨?_, ?_, ?_, ?_, ?_, ?_⟩
    · simp only [hr1]
    · exact hfo2
    · simp only [hr1]
    · simp only [hr1]
    · simp only [hr2]
    · simp only [hr2]
      rw [(update_state_fields defaultConfig _ i2.hc).1]
      have hp : ({ (process_health_check defaultConfig s i1).state with
          current_ip := i2.current_dns_ip } : MonitorState).is_failed_over
          = (process_health_check defaultConfig s i1).state.is_failed_over := rfl
      rw [hp, hfo2]

/-- Witness for C1: from the default state, the second of two unhealthy
checks fires the failover. -/
theorem C1_failover_exactly_once_witness :
    (process_health_check defaultConfig default_state exInputU).dns_write = none ∧
    (process_health_check defaultConfig
        (process_health_check defaultConfig default_state exInputU).state
        exInputU).dns_write = some defaultConfig.backup_ip ∧
    (process_health_check defaultConfig
        (process_health_check defaultConfig default_state exInputU).state
        exInputU).state.is_failed_over = true := by
  have h := (C1_failover_exactly_once default_state exInputU exInputU rfl
    (by decide) (by decide)).1 rfl
  exact ⟨h.1, h.2.2.2.1, h.2.2.2.2.1⟩

theorem stepHist_length (h : List HealthCheck) (x : HealthCheck) (hle : h.length ≤ 100) :
    (stepHist h x).length ≤ 100 := by
  unfold stepHist
  split
  · rename_i hgt
    rw [List.length_drop]
    simp only [List.length_append, List.length_cons, List.length_nil] at hgt ⊢
    omega
  · rename_i hng
    simp only [List.length_append, List.length_cons, List.length_nil] at hng ⊢
    omega

theorem process_history (cfg : Config) (s : MonitorState) (i : CycleInput) :
    (process_health_check cfg s i).state.health_history =
      if i.record_found = true then stepHist s.health_history i.hc
      else s.health_history := by
  have hh := (update_state_fields cfg { s with current_ip := i.current_dns_ip } i.hc).2.2.2.2
  by_cases hrec : i.record_found = true
  · rw [if_pos hrec]
    by_cases hsf : should_failover cfg
        (update_state cfg { s with current_ip := i.current_dns_ip } i.hc) i.hc = true
    · by_cases hw : i.write_ok = true
      · rw [process_fire_failover cfg s i hrec hw hsf]
        exact hh
      · rw [process_failover_writefail cfg s i hrec (Bool.not_eq_true _ ▸ hw) hsf]
        exact hh
    · have hsf' : should_failover cfg
          (update_state cfg { s with current_ip := i.current_dns_ip } i.hc) i.hc = false :=
        Bool.not_eq_true _ ▸ hsf
      by_cases hsr : should_restore cfg
          (update_state cfg { s with current_ip := i.current_dns_ip } i.hc) i.hc = true
      · by_cases hw : i.write_ok = true
        · rw [process_fire_restore cfg s i hrec hw hsf' hsr]
          exact hh
        · rw [process_restore_writefail cfg s i hrec (Bool.not_eq_true _ ▸ hw) hsf' hsr]
          exact hh
      · rw [process_no_action cfg s i hrec hsf' (Bool.not_eq_true _ ▸ hsr)]
        exact hh
  · rw [if_neg hrec, process_abort cfg s i (Bool.not_eq_true _ ▸ hrec)]

theorem manual_failover_history (cfg : Config) (s : MonitorState) (i : ManualInput) :
    (manual_failover cfg s i).1.health_history = s.health_history := by
  unfold manual_failover
  by_cases h1 : s.is_failed_over <;> by_cases h2 : i.record_found = false <;>
    by_cases h3 : i.write_ok <;> simp [h1, h2, h3]

theorem manual_restore_history (cfg : Config) (s : MonitorState) (i : ManualInput) :
    (manual_restore cfg s i).1.health_history = s.health_history := by
  unfold manual_restore
  by_cases h1 : s.is_failed_over <;> by_cases h2 : i.record_found = false <;>
    by_cases h3 : i.write_ok <;> simp [h1, h2, h3]

theorem last100_of_le (l : List HealthCheck) (h : l.length ≤ 100) : last100 l = l := by
  unfold last100
  rw [Nat.sub_eq_zero_of_le h, List.drop_zero]

theorem last100_cons (a : HealthCheck) (l : List HealthCheck) (h : 100 ≤ l.length) :
    last100 (a :: l) = last100 l := by
  unfold last100
  rw [List.length_cons]
  have he : l.length + 1 - 100 = (l.length - 100) + 1 := by omega
  rw [he, List.drop_succ_cons]

theorem stepHist_append_last100 (h : List HealthCheck) (x : HealthCheck)
    (t : List HealthCheck) (hle : h.length ≤ 100) :
    last100 (stepHist h x ++ t) = last100 (h ++ x :: t) := by
  unfold stepHist
  by_cases hgt : 100 < (h ++ [x]).length
  · rw [if_pos hgt]
    have h100 : h.length = 100 := by
      simp only [List.length_append, List.length_cons, List.length_nil] at hgt
      omega
    cases h with
    | nil => simp at h100
    | cons a h2 =>
      have hd : ((a :: h2) ++ [x]).drop 1 = h2 ++ [x] := rfl
      rw [hd]
      have e1 : (h2 ++ [x]) ++ t = h2 ++ x :: t := by simp
      have e2 : (a :: h2) ++ x :: t = a :: (h2 ++ x :: t) := rfl
      rw [e1, e2, last100_cons]
      rw [List.length_cons] at h100
      simp only [List.length_append, List.length_cons]
      omega
  · rw [if_neg hgt]
    have e : (h ++ [x]) ++ t = h ++ x :: t := by simp
    rw [e]

theorem run_history (cfg : Config) (inputs : List CycleInput) :
    ∀ s : MonitorState, s.health_history.length ≤ 100 →
    (∀ i ∈ inputs, i.record_found = true) →
    (run_cycles cfg s inputs).1.health_history
      = last100 (s.health_history ++ inputs.map (·.hc)) := by
  induction inputs with
  | nil =>
    intro s hle _
    simp only [run_cycles, List.map_nil, List.append_nil]
    rw [last100_of_le _ hle]
  | cons i is ih =>
    intro s hle hall
    have hrec := hall i (List.mem_cons_self i is)
    have hhist : (process_health_check cfg s i).state.health_history
        = stepHist s.health_history i.hc := by
      rw [process_history, if_pos hrec]
    have hlen2 : (process_health_check cfg s i).state.health_history.length ≤ 100 := by
      rw [hhist]
      exact stepHist_length _ _ hle
    have ihh := ih (process_health_check cfg s i).state hlen2
      (fun j hj => hall j (List.mem_cons_of_mem i hj))
    simp only [run_cycles]
    rw [ihh, hhist, List.map_cons, stepHist_append_last100 _ _ _ hle]

theorem reachable_history_le (cfg : Config) (s : MonitorState) (h : Reachable cfg s) :
    s.health_history.length ≤ 100 := by
  induction h with
  | init => simp [default_state]
  | @cycle t i _ ih =>
    rw [process_history]
    by_cases hrec : i.record_found = true
    · rw [if_pos hrec]
      exact stepHist_length _ _ ih
    · rw [if_neg hrec]
      exact ih
  | @mfailover t i _ ih =>
    rw [manual_failover_history]
    exact ih
  | @mrestore t i _ ih =>
    rw [manual_restore_history]
    exact ih

/-- Claim C5: `health_history` never exceeds 100 entries in any state
reachable from the default state, and 150 cycles with a readable DNS record
leave exactly the most recent 100 checks, in arrival order. -/
theorem C5_history_bounded :
    (∀ s : MonitorState, Reachable defaultConfig s → s.health_history.length ≤ 100) ∧
    (∀ inputs : List CycleInput, inputs.length = 150 →
      (∀ i ∈ inputs, i.record_found = true) →
      (run_cycles defaultConfig default_state inputs).1.health_history
          = (inputs.map (·.hc)).drop 50 ∧
      (run_cycles defaultConfig default_state inputs).1.health_history.length = 100) := by
  constructor
  · exact reachable_history_le defaultConfig
  · intro inputs hlen hall
    have hrun := run_history defaultConfig inputs default_state (by simp [default_state]) hall
    have hnil : default_state.health_history ++ inputs.map (·.hc) = inputs.map (·.hc) := by
      simp [default_state]
    rw [hnil] at hrun
    have hmaplen : (inputs.map (·.hc)).length = 150 := by
      rw [List.length_map, hlen]
    constructor
    · rw [hrun]
      unfold last100
      rw [hmaplen]
    · rw [hrun]
      unfold last100
      rw [List.length_drop, hmaplen]

/-- Witness for C5: the bound at the (reachable) default state, and the
150-cycle scenario at a concrete input list. -/
theorem C5_history_bounded_witness :
    default_state.health_history.length ≤ 100 ∧
    (run_cycles defaultConfig default_state (List.replicate 150 exInputH)).1.health_history
      = ((List.replicate 150 exInputH).map (·.hc)).drop 50 := by
  refine ⟨C5_history_bounded.1 default_state Reachable.init, ?_⟩
  exact (C5_history_bounded.2 (List.replicate 150 exInputH) (by simp)
    (fun i hi => by rw [List.eq_of_mem_replicate hi]; rfl)).1

/-- Witness for C8 at the default state. -/
theorem C8_counters_never_both_nonzero_witness :
    default_state.consecutive_failures = 0 ∨ default_state.consecutive_successes = 0 :=
  C8_counters_never_both_nonzero defaultConfig default_state Reachable.init

theorem padDigits_length : ∀ (w n : Nat), (padDigits w n).length = w := by
  intro w
  induction w with
  | zero => intro n; rfl
  | succ w ih =>
    intro n
    unfold padDigits
    rw [List.length_append, ih]
    rfl

theorem digitChar_lt : ∀ a < 10, ∀ b < 10, a < b → Nat.digitChar a < Nat.digitChar b := by
  decide

theorem lex_append_of_lex {α : Type} {r : α → α → Prop} :
    ∀ {x y : List α}, List.Lex r x y → x.length = y.length →
      ∀ u v, List.Lex r (x ++ u) (y ++ v) := by
  intro x y hlex
  induction hlex with
  | nil =>
    intro hlen
    simp at hlen
  | @rel a l1 b l2 hab =>
    intro _ u v
    exact List.Lex.rel hab
  | @cons a l1 l2 _ ih =>
    intro hlen u v
    simp only [List.length_cons, Nat.add_right_cancel_iff] at hlen
    exact List.Lex.cons (ih hlen u v)

theorem padDigits_lt : ∀ (w a b : Nat), a < b → b < 10 ^ w →
    List.Lex (· < ·) (padDigits w a) (padDigits w b) := by
  intro w
  induction w with
  | zero =>
    intro a b hab hb
    rw [pow_zero] at hb
    omega
  | succ w ih =>
    intro a b hab hb
    unfold padDigits
    rcases Nat.lt_or_ge (a / 10) (b / 10) with hlt | hge
    · have hb10 : b / 10 < 10 ^ w := by
        rw [Nat.div_lt_iff_lt_mul (by norm_num)]
        calc b < 10 ^ (w + 1) := hb
          _ = 10 ^ w * 10 := by ring
      exact lex_append_of_lex (ih _ _ hlt hb10)
        (by rw [padDigits_length, padDigits_length]) _ _
    · have heq : a / 10 = b / 10 :=
        le_antisymm (Nat.div_le_div_right (le_of_lt hab)) hge
      rw [heq]
      refine List.Lex.append_left _ ?_ _
      have hda := Nat.div_add_mod a 10
      have hdb := Nat.div_add_mod b 10
      have hmod : a % 10 < b % 10 := by omega
      exact List.Lex.rel
        (digitChar_lt _ (Nat.mod_lt _ (by norm_num)) _ (Nat.mod_lt _ (by norm_num)) hmod)

theorem isoChars_lt (a b : PyDateTime) (ha : validDT a) (hb : validDT b)
    (h : dtLt a b) : List.Lex (· < ·) (isoChars a) (isoChars b) := by
  obtain ⟨_, hay, _, ham, _, had, hah, hami, has, hamic⟩ := ha
  obtain ⟨_, hby, _, hbm, _, hbd, hbh, hbmi, hbs, hbmic⟩ := hb
  unfold isoChars
  rcases h with hy | ⟨hy, h⟩
  · exact lex_append_of_lex (padDigits_lt 4 _ _ hy (by omega))
      (by rw [padDigits_length, padDigits_length]) _ _
  rw [hy]
  refine List.Lex.append_left _ (List.Lex.cons ?_) _
  rcases h with hm | ⟨hm, h⟩
  · exact lex_append_of_lex (padDigits_lt 2 _ _ hm (by omega))
      (by rw [padDigits_length, padDigits_length]) _ _
  rw [hm]
  refine List.Lex.append_left _ (List.Lex.cons ?_) _
  rcases h with hd | ⟨hd, h⟩
  · exact lex_append_of_lex (padDigits_lt 2 _ _ hd (by omega))
      (by rw [padDigits_length, padDigits_length]) _ _
  rw [hd]
  refine List.Lex.append_left _ (List.Lex.cons ?_) _
  rcases h with hh | ⟨hh, h⟩
  · exact lex_append_of_lex (padDigits_lt 2 _ _ hh (by omega))
      (by rw [padDigits_length, padDigits_length]) _ _
  rw [hh]
  refine List.Lex.append_left _ (List.Lex.cons ?_) _
  rcases h with hmi | ⟨hmi, h⟩
  · exact lex_append_of_lex (padDigits_lt 2 _ _ hmi (by omega))
      (by rw [padDigits_length, padDigits_length]) _ _
  rw [hmi]
  refine List.Lex.append_left _ (List.Lex.cons ?_) _
  rcases h with hs | ⟨hs, hmic⟩
  · exact lex_append_of_lex (padDigits_lt 2 _ _ hs (by omega))
      (by rw [padDigits_length, padDigits_length]) _ _
  rw [hs]
  refine List.Lex.append_left _ ?_ _
  have hbnz : b.microsecond ≠ 0 := by omega
  rw [if_neg hbnz]
  by_cases haz : a.microsecond = 0
  · rw [if_pos haz]
    exact List.Lex.nil
  · rw [if_neg haz]
    exact List.Lex.cons (padDigits_lt 6 _ _ hmic (by omega))

theorem dtLt_iff_key (a b : PyDateTime) (ha : validDT a) (hb : validDT b) :
    dtLt a b ↔ dtKey a < dtKey b := by
  obtain ⟨ha1, ha2, ha3, ha4, ha5, ha6, ha7, ha8, ha9, ha10⟩ := ha
  obtain ⟨hb1, hb2, hb3, hb4, hb5, hb6, hb7, hb8, hb9, hb10⟩ := hb
  unfold dtLt dtKey
  omega

theorem dt_eq_of_key_eq (a b : PyDateTime) (ha : validDT a) (hb : validDT b)
    (h : dtKey a = dtKey b) : a = b := by
  obtain ⟨ha1, ha2, ha3, ha4, ha5, ha6, ha7, ha8, ha9, ha10⟩ := ha
  obtain ⟨hb1, hb2, hb3, hb4, hb5, hb6, hb7, hb8, hb9, hb10⟩ := hb
  unfold dtKey at h
  apply PyDateTime.ext <;> omega

theorem dtLt_resolve (a b : PyDateTime) (ha : validDT a) (hb : validDT b)
    (h : ¬ dtLt a b) : dtLt b a ∨ a = b := by
  rcases Nat.lt_trichotomy (dtKey a) (dtKey b) with hk | hk | hk
  · exact absurd ((dtLt_iff_key a b ha hb).mpr hk) h
  · exact Or.inr (dt_eq_of_key_eq a b ha hb hk)
  · exact Or.inl ((dtLt_iff_key b a hb ha).mpr hk)

theorem isoformat_lt_iff (a b : PyDateTime) (ha : validDT a) (hb : validDT b) :
    dtLt a b ↔ isoformat a < isoformat b := by
  have hfwd : ∀ x y : PyDateTime, validDT x → validDT y → dtLt x y →
      isoformat x < isoformat y := by
    intro x y hx hy hlt
    rw [String.lt_iff_toList_lt]
    exact isoChars_lt x y hx hy hlt
  constructor
  · exact hfwd a b ha hb
  · intro h
    by_contra hn
    rcases dtLt_resolve a b ha hb hn with h2 | h2
    · exact absurd h (lt_asymm (hfwd b a hb ha h2))
    · subst h2
      exact absurd h (lt_irrefl _)

/-- Counterexample for C9: `save_state` does not truncate the health
history before writing — serializing a state whose history holds 101
entries yields a serialized history of 101 entries, above the documented
100-entry capacity. -/
theorem C9_counterexample_no_truncation :
    (save_state exFatState).health_history.length = 101 := by
  unfold save_state exFatState
  simp

/-- Claim C9 as amended: `save_state` serializes `health_history` entry for
entry without truncating, so the serialized form holds at most 100 entries
exactly when the input state satisfies the capacity invariant — which every
state the engine reaches does — and timestamps are serialized by
`isoformat()`, a total-order-preserving textual form. -/
theorem C9_amended_save_serialization (s : MonitorState) (a b : PyDateTime)
    (hs : Reachable defaultConfig s) (ha : validDT a) (hb : validDT b) :
    (save_state s).health_history.length = s.health_history.length ∧
    (save_state s).health_history.map (fun h => h.timestamp)
      = s.health_history.map (fun h => isoformat h.timestamp) ∧
    (save_state s).health_history.length ≤ 100 ∧
    (save_state s).last_failover = s.last_failover.map isoformat ∧
    (save_state s).last_restore = s.last_restore.map isoformat ∧
    (dtLt a b ↔ isoformat a < isoformat b) := by
  refine ⟨?_, ?_, ?_, rfl, rfl, isoformat_lt_iff a b ha hb⟩
  · unfold save_state
    simp
  · unfold save_state
    simp
  · unfold save_state
    simp only [List.length_map]
    exact reachable_history_le defaultConfig s hs

/-- Witness for the amended C9 at the default state and two concrete
datetimes that differ only in microseconds. -/
theorem C9_amended_save_serialization_witness :
    (save_state default_state).health_history.length ≤ 100 ∧
    (dtLt exDT exDT2 ↔ isoformat exDT < isoformat exDT2) := by
  have h := C9_amended_save_serialization default_state exDT exDT2
    Reachable.init (by decide) (by decide)
  exact ⟨h.2.2.1, h.2.2.2.2.2⟩

end CFFailover
